import Mathlib

/-!
Shallow embedding of the rate-limit compliance verifier of the
`webservice_statuscodes` examples: the probe/burst/backoff/recovery loops of
`python_examples/rate_limit_test.py` and the `APIClient` retry fragment of
`python_examples/error_handling.py`.

Network nondeterminism is made explicit: every `requests.get` call is fed one
value describing what the transport produced (a raised exception, or a
response carrying a status code and a body), and each script's loop becomes a
pure function from the list of those per-call environments to the trace the
script produces (counters, sleeps performed, probes fired).
-/

namespace StatusService

/-- The JSON body of one HTTP response, restricted to what the scripts
observe: `noContent` models a falsy `response.content` (so `response.json()`
raises), `badJson` a non-empty body that `response.json()` fails to parse,
and `json errField hasCount` a parsed object with its optional `error` field
and whether a `count` field is present. -/
inductive Body
  | noContent
  | badJson
  | json (errField : Option String) (hasCount : Bool)
  deriving DecidableEq

/-- What a single `requests.get` call yields: a raised transport exception
(`exn`), or a response with a status code and a body. -/
inductive ProbeResp
  | exn
  | resp (status : Nat) (body : Body)
  deriving DecidableEq

/-- The three tallies kept by `test_rate_limiting`
(`successful`, `rate_limited`, `errors`). -/
structure Counters where
  successful : Nat
  rate_limited : Nat
  errors : Nat
  deriving DecidableEq

/-- One iteration of the request loop of `test_rate_limiting`
(rate_limit_test.py lines 32-52): classify the response by status code,
update the tallies, and report whether the iteration reached its trailing
`time.sleep(0.1)` (an exception in the iteration body jumps to the handler
and skips that sleep). On status 429 the code first increments
`rate_limited` and then calls `response.json()`; if the body does not parse,
that call raises and the handler increments `errors` as well. -/
def rateLimitStep (c : Counters) (r : ProbeResp) : Counters × Bool :=
  match r with
  | .exn => ({ c with errors := c.errors + 1 }, false)
  | .resp s b =>
    if s = 200 then
      ({ c with successful := c.successful + 1 }, true)
    else if s = 429 then
      match b with
      | .json _ _ => ({ c with rate_limited := c.rate_limited + 1 }, true)
      | _ =>
        ({ c with rate_limited := c.rate_limited + 1, errors := c.errors + 1 }, false)
    else
      ({ c with errors := c.errors + 1 }, true)

/-- The request loop of `test_rate_limiting`, folded over the per-probe
environments, threading the tallies and recording, per probe, whether the
inter-request sleep ran. -/
def runBurstAux : Counters → List ProbeResp → Counters × List Bool
  | c, [] => (c, [])
  | c, r :: rest =>
    ((runBurstAux (rateLimitStep c r).1 rest).1,
      (rateLimitStep c r).2 :: (runBurstAux (rateLimitStep c r).1 rest).2)

/-- `test_rate_limiting` (rate_limit_test.py lines 27-52), generalized from
the hard-coded 35 requests to any list of per-probe environments: the final
tallies plus the list of inter-request-sleep flags, in fire order. -/
def test_rate_limiting (inputs : List ProbeResp) : Counters × List Bool :=
  runBurstAux ⟨0, 0, 0⟩ inputs

/-- Does the loop body of `test_rate_limiting` raise for this probe
environment (thereby skipping that iteration's `time.sleep(0.1)`)?
Either `requests.get` itself raised, or the status was 429 and
`response.json()` failed on the body. -/
def raisesDuringIteration : ProbeResp → Bool
  | .exn => true
  | .resp s b =>
    if s = 429 then
      match b with
      | .json _ _ => false
      | _ => true
    else false

/-- The pacing property §4.3 claims for the burst runner, in the spec's own
words: the full requested count is fired, and between every pair of
consecutive probes the inter-request sleep runs. -/
def pacedBurstClaim (inputs : List ProbeResp) : Prop :=
  (test_rate_limiting inputs).2.length = inputs.length ∧
    ∀ i, i < inputs.length - 1 → (test_rate_limiting inputs).2.getD i false = true

/-- Trace of one run of the retry loop in `demonstrate_backoff_strategy`:
how many `requests.get` calls were made, which backoff sleeps ran (as pairs
of the 0-indexed attempt and the seconds slept), and whether the loop ended
via `break` on a successful attempt. -/
structure BackoffTrace where
  calls : Nat
  sleeps : List (Nat × Nat)
  succeeded : Bool
  deriving DecidableEq

/-- Does this iteration of `demonstrate_backoff_strategy` reach its `break`?
That requires status 200 and a body that parses with a `count` field: the
`response.json()` and `data['count']` reads sit before the `break`, and if
either raises the handler catches it and the loop continues. -/
def breaksLoop : ProbeResp → Bool
  | .resp 200 (.json _ true) => true
  | _ => false

/-- Is this iteration's status exactly 429 — the only branch of
`demonstrate_backoff_strategy` that can sleep? -/
def throttled429 : ProbeResp → Bool
  | .resp 429 _ => true
  | _ => false

/-- The retry loop of `demonstrate_backoff_strategy`
(rate_limit_test.py lines 150-170), one recursive step per loop iteration.
`attempt` is the 0-indexed loop variable; the loop stops when it reaches
`max_retries`. A breaking iteration contributes one call and stops; a 429
iteration sleeps `base_delay * 2 ^ attempt` only when
`attempt < max_retries - 1`; every other iteration (exception, unexpected
status, 200 whose body fails to yield `count`) just proceeds to the next
attempt with no sleep. -/
def backoffGo (base_delay max_retries : Nat) : Nat → List ProbeResp → BackoffTrace
  | _, [] => ⟨0, [], false⟩
  | attempt, r :: rest =>
    if max_retries ≤ attempt then ⟨0, [], false⟩
    else if breaksLoop r then ⟨1, [], true⟩
    else if throttled429 r then
      if attempt < max_retries - 1 then
        ⟨(backoffGo base_delay max_retries (attempt + 1) rest).calls + 1,
          (attempt, base_delay * 2 ^ attempt) ::
            (backoffGo base_delay max_retries (attempt + 1) rest).sleeps,
          (backoffGo base_delay max_retries (attempt + 1) rest).succeeded⟩
      else
        ⟨(backoffGo base_delay max_retries (attempt + 1) rest).calls + 1,
          (backoffGo base_delay max_retries (attempt + 1) rest).sleeps,
          (backoffGo base_delay max_retries (attempt + 1) rest).succeeded⟩
    else
      ⟨(backoffGo base_delay max_retries (attempt + 1) rest).calls + 1,
        (backoffGo base_delay max_retries (attempt + 1) rest).sleeps,
        (backoffGo base_delay max_retries (attempt + 1) rest).succeeded⟩

/-- `demonstrate_backoff_strategy` (rate_limit_test.py lines 147-170),
generalized from the hard-coded `max_retries = 5`, `base_delay = 1` to
parameters, run against a list of per-attempt environments. -/
def demonstrate_backoff_strategy (inputs : List ProbeResp)
    (base_delay max_retries : Nat) : BackoffTrace :=
  backoffGo base_delay max_retries 0 inputs

/-- Python `range(start, stop, -step)` for positive `step` and
`stop ≤ start`, as the list of loop values; `range(65, 0, -5)` drives the
countdown of `test_rate_limit_recovery`. -/
def pyRangeDown (start stop step : Nat) : List Nat :=
  (List.range ((start - stop + step - 1) / step)).map (fun k => start - k * step)

/-- Trace of one run of `test_rate_limit_recovery`: probes fired by the
saturating burst, whether the test proceeded past the 429 check
(`saturated`), the individual wait sleeps in seconds, probes fired during
the wait, probes fired by the verification step, and — when verification
ran — whether it observed status 200. -/
structure RecoveryTrace where
  burst_probes : Nat
  saturated : Bool
  wait_sleeps : List Nat
  wait_probes : Nat
  verify_probes : Nat
  recovered : Option Bool
  deriving DecidableEq

/-- `test_rate_limit_recovery` (rate_limit_test.py lines 78-101): fire a
burst of probes whose responses are discarded unread (`burst` lists the
status codes those responses carried), fire one further probe, and branch on
that probe's status alone. On 429 it counts down `range(65, 0, -5)` with a
5-second sleep per step and no probes in between, then issues exactly one
verification probe (status `postStatus`); on anything else it stops at the
"was not rate limited initially" terminal. -/
def test_rate_limit_recovery (burst : List Nat) (extraStatus postStatus : Nat) :
    RecoveryTrace :=
  if extraStatus = 429 then
    { burst_probes := burst.length
      saturated := true
      wait_sleeps := (pyRangeDown 65 0 5).map (fun _ => 5)
      wait_probes := 0
      verify_probes := 1
      recovered := some (postStatus == 200) }
  else
    { burst_probes := burst.length
      saturated := false
      wait_sleeps := []
      wait_probes := 0
      verify_probes := 0
      recovered := none }

/-- One iteration of the inner loop of `test_exempt_endpoints`
(rate_limit_test.py lines 124-130): only a response with status exactly 200
increments the tally; every exception is swallowed by the bare
`except: pass` and leaves it unchanged; no other status is recorded. -/
def exemptStep (successful : Nat) (r : ProbeResp) : Nat :=
  match r with
  | .exn => successful
  | .resp s _ => if s = 200 then successful + 1 else successful

/-- The per-endpoint burst of `test_exempt_endpoints`, generalized from the
hard-coded 50 requests to any list of per-probe environments; the recorded
result is the success tally alone. -/
def test_exempt_endpoints (events : List ProbeResp) : Nat :=
  events.foldl exemptStep 0

/-- Did this probe environment carry a response with status exactly 200? -/
def is200 : ProbeResp → Bool
  | .resp s _ => s == 200
  | .exn => false

/-- What one `session.get` call inside `APIClient.get` yields: a raised
`requests` exception (timeout, connection error, other request error), or a
response with a status code and a body. -/
inductive TransportEvent
  | timeout
  | connError
  | reqError (msg : String)
  | response (status : Nat) (body : Body)
  deriving DecidableEq

/-- `APIClient.get` (error_handling.py lines 22-55). Every failure — a
transport exception, a status `≥ 400` (429 included), or a body that fails
to parse — is re-raised as the single generic `Exception` type, modelled as
`Except.error` with the raised message; only a response with status `< 400`
and a parseable body returns (`Except.ok` with the parsed body). For
status `≥ 400` the error message embeds the body's optional `error` field
when the body parses, the fallback text when the body is empty, and the
"Invalid JSON" text when a non-empty body fails to parse. -/
def APIClient.get (timeoutSecs : Nat) (ev : TransportEvent) : Except String Body :=
  match ev with
  | .response status body =>
    if 400 ≤ status then
      match body with
      | .noContent => .error ("HTTP " ++ toString status ++ ": Unknown error")
      | .badJson => .error "Invalid JSON response from API"
      | .json ef _ =>
        .error ("HTTP " ++ toString status ++ ": " ++ ef.getD "Unknown error")
    else
      match body with
      | .json ef hc => .ok (.json ef hc)
      | _ => .error "Invalid JSON response from API"
  | .timeout => .error ("Request timeout after " ++ toString timeoutSecs ++ " seconds")
  | .connError => .error "Could not connect to API. Is the service running?"
  | .reqError m => .error ("Request error: " ++ m)

/-- Does one iteration of the retry loop of `example_safe_request` reach its
`break`? `client.get` must return (status `< 400`, body parsed) and the
`data['count']` read before the `break` must not raise, i.e. the parsed body
must carry a `count` field; the client is built with the default 10-second
timeout. -/
def attemptSucceeds (ev : TransportEvent) : Bool :=
  match APIClient.get 10 ev with
  | .ok (.json _ true) => true
  | _ => false

/-- Trace of one run of the retry loop of `example_safe_request`: calls
made, backoff sleeps in seconds in order, and whether it broke on success. -/
structure RetryTrace where
  calls : Nat
  sleeps : List Nat
  succeeded : Bool
  deriving DecidableEq

/-- The retry loop of `example_safe_request` (error_handling.py lines
105-121), one recursive step per loop iteration. On a failed attempt with
attempts remaining it sleeps the current `retry_delay` and then doubles it;
on the last attempt it neither sleeps nor doubles. -/
def retryGo (max_retries : Nat) : Nat → Nat → List TransportEvent → RetryTrace
  | _, _, [] => ⟨0, [], false⟩
  | attempt, retry_delay, ev :: rest =>
    if max_retries ≤ attempt then ⟨0, [], false⟩
    else if attemptSucceeds ev then ⟨1, [], true⟩
    else if attempt < max_retries - 1 then
      ⟨(retryGo max_retries (attempt + 1) (retry_delay * 2) rest).calls + 1,
        retry_delay :: (retryGo max_retries (attempt + 1) (retry_delay * 2) rest).sleeps,
        (retryGo max_retries (attempt + 1) (retry_delay * 2) rest).succeeded⟩
    else
      ⟨(retryGo max_retries (attempt + 1) retry_delay rest).calls + 1,
        (retryGo max_retries (attempt + 1) retry_delay rest).sleeps,
        (retryGo max_retries (attempt + 1) retry_delay rest).succeeded⟩

/-- The retry-logic fragment of `example_safe_request`, generalized from the
hard-coded `max_retries = 3` to a parameter; `retry_delay` starts at 1. -/
def example_safe_request (max_retries : Nat) (events : List TransportEvent) :
    RetryTrace :=
  retryGo max_retries 0 1 events

/-- Modelled from the spec: the `BackoffPlan` configuration record of §3.
The scripts carry its pieces as loose constants (`max_retries = 5` with
`base_delay = 1` and multiplier 2 in rate_limit_test.py; `max_retries = 3`
with `retry_delay = 1` doubling per retry in error_handling.py); the record
itself and a multiplier other than 2 appear only in the spec. -/
structure BackoffPlan where
  maxAttempts : Nat
  baseDelaySeconds : ℚ
  multiplier : ℚ

/-- The derived delay function of §3:
`delay(attempt) = baseDelaySeconds × multiplier ^ attempt`, the
generalization of the scripts' `base_delay * (2 ** attempt)`. -/
def delay (p : BackoffPlan) (attempt : Nat) : ℚ :=
  p.baseDelaySeconds * p.multiplier ^ attempt

/-! ### Helper lemmas -/

theorem rateLimitStep_snd (c : Counters) (r : ProbeResp) :
    (rateLimitStep c r).2 = !(raisesDuringIteration r) := by
  cases r with
  | exn => rfl
  | resp s b =>
    by_cases h200 : s = 200
    · subst h200; cases b <;> rfl
    · by_cases h429 : s = 429
      · subst h429; cases b <;> rfl
      · simp [rateLimitStep, raisesDuringIteration, h200, h429]

theorem runBurstAux_snd (c : Counters) (l : List ProbeResp) :
    (runBurstAux c l).2 = l.map (fun r => !(raisesDuringIteration r)) := by
  induction l generalizing c with
  | nil => rfl
  | cons r rest ih =>
    simp [runBurstAux, rateLimitStep_snd, ih]

theorem backoffGo_stopped (b m : Nat) (l : List ProbeResp) (att : Nat) (h : m ≤ att) :
    backoffGo b m att l = ⟨0, [], false⟩ := by
  cases l with
  | nil => rfl
  | cons r rest => simp [backoffGo, h]

theorem backoffGo_calls_le (b m : Nat) (l : List ProbeResp) :
    ∀ att, (backoffGo b m att l).calls ≤ m - att := by
  induction l with
  | nil => intro att; simp [backoffGo]
  | cons r rest ih =>
    intro att
    by_cases h1 : m ≤ att
    · simp [backoffGo, h1]
    · have hlt : att < m := Nat.lt_of_not_le h1
      have hrec := ih (att + 1)
      by_cases h2 : breaksLoop r = true
      · simp [backoffGo, h1, h2]; omega
      · by_cases h3 : throttled429 r = true
        · by_cases h4 : att < m - 1 <;>
            simp [backoffGo, h1, h2, h3, h4] <;> omega
        · simp [backoffGo, h1, h2, h3]; omega

theorem backoffGo_break (b m : Nat) :
    ∀ (pre : List ProbeResp) (att : Nat) (r : ProbeResp) (rest : List ProbeResp),
      (∀ p ∈ pre, breaksLoop p = false) → breaksLoop r = true →
      att + pre.length < m →
      (backoffGo b m att (pre ++ r :: rest)).calls = pre.length + 1 ∧
      (backoffGo b m att (pre ++ r :: rest)).succeeded = true := by
  intro pre
  induction pre with
  | nil =>
    intro att r rest _ hbr hlen
    have h1 : ¬ m ≤ att := by simp at hlen; omega
    simp [backoffGo, h1, hbr]
  | cons p pre ih =>
    intro att r rest hpre hbr hlen
    have hp : breaksLoop p = false := hpre p (by simp)
    have hpre2 : ∀ q ∈ pre, breaksLoop q = false := fun q hq => hpre q (by simp [hq])
    have h1 : ¬ m ≤ att := by simp at hlen; omega
    have hrec := ih (att + 1) r rest hpre2 hbr (by simp at hlen ⊢; omega)
    by_cases h3 : throttled429 p = true
    · by_cases h4 : att < m - 1 <;>
        simp [backoffGo, h1, hp, h3, h4, hrec.1, hrec.2]
    · simp [backoffGo, h1, hp, h3, hrec.1, hrec.2]

theorem backoffGo_throttle_mem (b m : Nat) :
    ∀ (pre : List ProbeResp) (att : Nat) (body : Body) (rest : List ProbeResp),
      (∀ p ∈ pre, breaksLoop p = false) → att + pre.length + 1 < m →
      (att + pre.length, b * 2 ^ (att + pre.length)) ∈
        (backoffGo b m att (pre ++ ProbeResp.resp 429 body :: rest)).sleeps := by
  intro pre
  induction pre with
  | nil =>
    intro att body rest _ hlen
    have h1 : ¬ m ≤ att := by omega
    have hbr : breaksLoop (ProbeResp.resp 429 body) = false := by cases body <;> rfl
    have h3 : throttled429 (ProbeResp.resp 429 body) = true := rfl
    have h4 : att < m - 1 := by omega
    simp [backoffGo, h1, hbr, h3, h4]
  | cons p pre ih =>
    intro att body rest hpre hlen
    have hp : breaksLoop p = false := hpre p (by simp)
    have hpre2 : ∀ q ∈ pre, breaksLoop q = false := fun q hq => hpre q (by simp [hq])
    have h1 : ¬ m ≤ att := by simp at hlen; omega
    have hrec := ih (att + 1) body rest hpre2 (by simp at hlen ⊢; omega)
    have heq : att + (p :: pre).length = att + 1 + pre.length := by
      simp only [List.length_cons]; omega
    rw [heq]
    by_cases h3 : throttled429 p = true
    · by_cases h4 : att < m - 1
      · simp only [List.cons_append, backoffGo, h1, hp, h3, h4, if_false, if_true,
          ite_true, ite_false, Bool.false_eq_true, if_neg h1]
        simp [h4, List.mem_cons]
        right
        exact hrec
      · simp [backoffGo, h1, hp, h3, h4]
        exact hrec
    · simp [backoffGo, h1, hp, h3]
      exact hrec

theorem retryGo_stopped (m : Nat) (l : List TransportEvent) (att d : Nat)
    (h : m ≤ att) : retryGo m att d l = ⟨0, [], false⟩ := by
  cases l with
  | nil => rfl
  | cons r rest => simp [retryGo, h]

theorem retryGo_sleep_mem (m : Nat) :
    ∀ (pre : List TransportEvent) (att d : Nat) (ev : TransportEvent)
      (rest : List TransportEvent),
      (∀ e ∈ pre, attemptSucceeds e = false) → attemptSucceeds ev = false →
      att + pre.length + 1 < m →
      d * 2 ^ pre.length ∈ (retryGo m att d (pre ++ ev :: rest)).sleeps := by
  intro pre
  induction pre with
  | nil =>
    intro att d ev rest _ hev hlen
    have h1 : ¬ m ≤ att := by omega
    have h4 : att < m - 1 := by omega
    simp [retryGo, h1, hev, h4]
  | cons p pre ih =>
    intro att d ev rest hpre hev hlen
    have hp : attemptSucceeds p = false := hpre p (by simp)
    have hpre2 : ∀ q ∈ pre, attemptSucceeds q = false := fun q hq => hpre q (by simp [hq])
    have h1 : ¬ m ≤ att := by simp at hlen; omega
    have h4 : att < m - 1 := by simp at hlen; omega
    have hrec := ih (att + 1) (d * 2) ev rest hpre2 hev (by simp at hlen ⊢; omega)
    have heq : d * 2 ^ (p :: pre).length = d * 2 * 2 ^ pre.length := by
      simp only [List.length_cons, pow_succ]; ring
    rw [heq]
    simp [retryGo, h1, hp, h4, List.mem_cons]
    right
    exact hrec

theorem retryGo_factor (m : Nat) :
    ∀ (evs evs2 : List TransportEvent) (att d : Nat),
      evs.map attemptSucceeds = evs2.map attemptSucceeds →
      retryGo m att d evs = retryGo m att d evs2 := by
  intro evs
  induction evs with
  | nil =>
    intro evs2 att d h
    cases evs2 with
    | nil => rfl
    | cons e es => simp at h
  | cons e es ih =>
    intro evs2 att d h
    cases evs2 with
    | nil => simp at h
    | cons f fs =>
      simp only [List.map_cons, List.cons.injEq] at h
      obtain ⟨hef, hefs⟩ := h
      by_cases h1 : m ≤ att
      · simp [retryGo, h1]
      · by_cases h2 : attemptSucceeds e = true
        · have hf2 : attemptSucceeds f = true := by rw [← hef]; exact h2
          simp [retryGo, h1, h2, hf2]
        · have hf2 : ¬ attemptSucceeds f = true := by rw [← hef]; exact h2
          by_cases h4 : att < m - 1
          · simp [retryGo, h1, h2, hf2, h4, ih fs (att + 1) (d * 2) hefs]
          · simp [retryGo, h1, h2, hf2, h4, ih fs (att + 1) d hefs]

/-! ### Claim theorems -/

/-- Claim C1, counterexample: a response with status 204 — inside 200–299 —
is tallied as an error, not a success, because `test_rate_limiting` tests
`response.status_code == 200` exactly, so the claimed "any status in
200–299 yields Success" fails at status 204. -/
theorem C1_counterexample :
    (test_rate_limiting [ProbeResp.resp 204 (Body.json none true)]).1.successful = 0 ∧
    (test_rate_limiting [ProbeResp.resp 204 (Body.json none true)]).1.errors = 1 := by
  decide

/-- Claim C1, amended: the probe loop of `test_rate_limiting` classifies a
response purely by status code, with Success for exactly status 200 (not
all of 200–299): status 200 increments only `successful`; status 429
increments `rate_limited` whatever the body holds (in particular an absent
`error` field is tolerated); a network-level exception or any other status
code increments only `errors`; and the loop body is a total function of the
probe environment, so none of these categories propagates an exception to
the caller. -/
theorem C1_theorem (c : Counters) (b : Body) (s : Nat) :
    (rateLimitStep c (ProbeResp.resp 200 b)).1 =
      { c with successful := c.successful + 1 } ∧
    (rateLimitStep c (ProbeResp.resp 429 b)).1.rate_limited = c.rate_limited + 1 ∧
    (rateLimitStep c ProbeResp.exn).1 = { c with errors := c.errors + 1 } ∧
    (s ≠ 200 → s ≠ 429 →
      (rateLimitStep c (ProbeResp.resp s b)).1 = { c with errors := c.errors + 1 }) := by
  refine ⟨rfl, ?_, rfl, ?_⟩
  · cases b <;> rfl
  · intro h200 h429
    simp [rateLimitStep, h200, h429]

/-- Claim C1, witness: the amended classification at concrete inputs —
status 200 bumps `successful`, and status 503 (neither 200 nor 429) bumps
`errors`. -/
theorem C1_witness :
    (rateLimitStep ⟨1, 2, 3⟩ (ProbeResp.resp 200 Body.noContent)).1 =
      { successful := 2, rate_limited := 2, errors := 3 } ∧
    (rateLimitStep ⟨1, 2, 3⟩ (ProbeResp.resp 503 Body.noContent)).1 =
      { successful := 1, rate_limited := 2, errors := 4 } :=
  ⟨(C1_theorem ⟨1, 2, 3⟩ Body.noContent 503).1,
    (C1_theorem ⟨1, 2, 3⟩ Body.noContent 503).2.2.2 (by decide) (by decide)⟩

/-- Claim C2, the code evaluated at the failing input: a burst of a single
probe whose response is a 429 with an unparseable body fires one probe, yet
the final tallies sum to 2 — `rate_limited` is incremented before
`response.json()` raises, and the exception handler then increments
`errors` for the same probe, so `successful + throttled + failed` exceeds
the number of probes fired, violating the claimed invariant. -/
theorem C2_theorem :
    (test_rate_limiting [ProbeResp.resp 429 Body.badJson]).2.length = 1 ∧
    (test_rate_limiting [ProbeResp.resp 429 Body.badJson]).1.successful +
      (test_rate_limiting [ProbeResp.resp 429 Body.badJson]).1.rate_limited +
      (test_rate_limiting [ProbeResp.resp 429 Body.badJson]).1.errors = 2 := by
  decide

/-- Claim C8, counterexample: in a two-probe burst whose first probe raises
a transport exception, the handler is entered before the iteration's
`time.sleep(0.1)`, so no inter-request sleep separates the first and second
probes — the claimed "sleeping between every pair of consecutive probes"
fails. -/
theorem C8_counterexample :
    ¬ pacedBurstClaim [ProbeResp.exn, ProbeResp.resp 200 (Body.json none true)] := by
  unfold pacedBurstClaim
  decide

/-- Claim C8, amended: for every requested count, the burst runner of
`test_rate_limiting` fires exactly that many probes and never aborts early —
one sleep flag is recorded per requested probe, Throttled and Failed
included — and the inter-request sleep runs after exactly those probes whose
iteration raises no exception (the final probe included); a probe whose
iteration raises (transport failure, or a 429 whose body fails to parse)
is not followed by the pacing sleep. -/
theorem C8_theorem (inputs : List ProbeResp) :
    (test_rate_limiting inputs).2.length = inputs.length ∧
    (test_rate_limiting inputs).2 =
      inputs.map (fun r => !(raisesDuringIteration r)) := by
  constructor
  · rw [test_rate_limiting, runBurstAux_snd]; simp
  · rw [test_rate_limiting, runBurstAux_snd]

/-- Claim C3, counterexample: with two attempts remaining
(`max_retries = 2`), attempt 0 comes back Failed (status 500), yet
`demonstrate_backoff_strategy` performs no sleep at all before attempt 1 —
only the 429 branch sleeps, so the claimed "for every attempt whose outcome
is Throttled or Failed ... sleeps delay(attempt)" fails on a Failed
attempt. -/
theorem C3_counterexample :
    (demonstrate_backoff_strategy
      [ProbeResp.resp 500 (Body.json none true),
        ProbeResp.resp 200 (Body.json none true)] 1 2).sleeps = [] := by
  decide

/-- Claim C3, amended: in the backoff scheduler of
`demonstrate_backoff_strategy`, for every attempt whose outcome is
Throttled (status 429), if attempts remain the scheduler sleeps
`delay(attempt) = base_delay × 2 ^ attempt` seconds (attempt 0-indexed)
before the next attempt, while Failed attempts proceed to the next attempt
with no sleep; in the retry loop of `example_safe_request`, every failed
attempt with attempts remaining sleeps `1 × 2 ^ attempt` seconds; and with
`max_retries = 1` either loop performs a single unconditional probe with no
sleep. -/
theorem C3_theorem :
    (∀ (b m : Nat) (pre rest : List ProbeResp) (body : Body),
      (∀ r ∈ pre, breaksLoop r = false) → pre.length + 1 < m →
      (pre.length, b * 2 ^ pre.length) ∈
        (demonstrate_backoff_strategy
          (pre ++ ProbeResp.resp 429 body :: rest) b m).sleeps) ∧
    (∀ (m : Nat) (pre rest : List TransportEvent) (ev : TransportEvent),
      (∀ e ∈ pre, attemptSucceeds e = false) → attemptSucceeds ev = false →
      pre.length + 1 < m →
      2 ^ pre.length ∈ (example_safe_request m (pre ++ ev :: rest)).sleeps) ∧
    (∀ (b : Nat) (r : ProbeResp) (rest : List ProbeResp),
      demonstrate_backoff_strategy (r :: rest) b 1 = ⟨1, [], breaksLoop r⟩) := by
  refine ⟨?_, ?_, ?_⟩
  · intro b m pre rest body hpre hlen
    have h := backoffGo_throttle_mem b m pre 0 body rest hpre (by omega)
    simpa [demonstrate_backoff_strategy] using h
  · intro m pre rest ev hpre hev hlen
    have h := retryGo_sleep_mem m pre 0 1 ev rest hpre hev (by omega)
    simpa [example_safe_request] using h
  · intro b r rest
    by_cases hbr : breaksLoop r = true
    · simp [demonstrate_backoff_strategy, backoffGo, hbr]
    · have hstop : backoffGo b 1 1 rest = ⟨0, [], false⟩ :=
        backoffGo_stopped b 1 rest 1 (by omega)
      by_cases h3 : throttled429 r = true <;>
        simp [demonstrate_backoff_strategy, backoffGo, hbr, h3, hstop]

/-- Claim C3, witness: concrete sleeps — after a Failed attempt 0 and a
Throttled attempt 1 (of 5), the scheduler sleeps 2 = 1 × 2¹ seconds; and
after two failed attempts in the `example_safe_request` loop (of 5), a
4-second sleep (= 2²) occurs at attempt 2. -/
theorem C3_witness :
    ((1 : Nat), (2 : Nat)) ∈
      (demonstrate_backoff_strategy
        [ProbeResp.exn, ProbeResp.resp 429 Body.badJson] 1 5).sleeps ∧
    (4 : Nat) ∈
      (example_safe_request 5
        [TransportEvent.timeout, TransportEvent.connError,
          TransportEvent.timeout]).sleeps := by
  constructor
  · have h := C3_theorem.1 1 5 [ProbeResp.exn] [] Body.badJson
      (by decide) (by decide)
    simpa using h
  · have h := C3_theorem.2.1 5 [TransportEvent.timeout, TransportEvent.connError]
      [] TransportEvent.timeout (by decide) (by decide) (by decide)
    simpa using h

/-- Claim C6, counterexample: a first attempt that is a Success does not
always stop the loop. With 5 attempts allowed, a 204 response — inside the
spec's 200–299 Success range — matches neither the `== 200` nor the
`== 429` branch of `demonstrate_backoff_strategy`, so the loop silently
continues; and a 200 response whose parsed body lacks a `count` field
raises `KeyError` at `data['count']` before the `break`, is caught by the
handler, and the loop continues. In both runs two calls are made where the
claim's "returns immediately ... after k+1 calls" demands one. -/
theorem C6_counterexample :
    (demonstrate_backoff_strategy
      [ProbeResp.resp 204 (Body.json none true),
        ProbeResp.resp 200 (Body.json none true)] 1 5).calls = 2 ∧
    (demonstrate_backoff_strategy
      [ProbeResp.resp 200 (Body.json none false),
        ProbeResp.resp 200 (Body.json none true)] 1 5).calls = 2 := by
  decide

/-- Claim C6, amended: the backoff scheduler of
`demonstrate_backoff_strategy` with `max_retries = N` invokes
`requests.get` at most N times regardless of the outcomes; and when the
first breaking attempt — a response with status exactly 200 whose body
parses as JSON and carries a `count` field, the only outcome the loop's
`break` accepts — sits at 0-indexed attempt k < N, the loop breaks there
with exactly k + 1 calls made, consuming none of the remaining attempts.
Other Successes (a 2xx status other than 200, or a 200 whose body fails to
yield `count`) do not stop the loop. -/
theorem C6_theorem :
    (∀ (b m : Nat) (inputs : List ProbeResp),
      (demonstrate_backoff_strategy inputs b m).calls ≤ m) ∧
    (∀ (b m : Nat) (pre rest : List ProbeResp) (r : ProbeResp),
      (∀ p ∈ pre, breaksLoop p = false) → breaksLoop r = true →
      pre.length < m →
      (demonstrate_backoff_strategy (pre ++ r :: rest) b m).calls = pre.length + 1 ∧
      (demonstrate_backoff_strategy (pre ++ r :: rest) b m).succeeded = true) := by
  constructor
  · intro b m inputs
    have h := backoffGo_calls_le b m inputs 0
    simpa [demonstrate_backoff_strategy] using h
  · intro b m pre rest r hpre hbr hlen
    exact backoffGo_break b m pre 0 r rest hpre hbr (by omega)

/-- Claim C6, witness: a Throttled attempt followed by the first Success at
attempt 1 (of 5 allowed) stops the loop at 2 calls with the succeeded
flag set. -/
theorem C6_witness :
    (demonstrate_backoff_strategy
      [ProbeResp.resp 429 Body.badJson,
        ProbeResp.resp 200 (Body.json none true)] 1 5).calls = 2 ∧
    (demonstrate_backoff_strategy
      [ProbeResp.resp 429 Body.badJson,
        ProbeResp.resp 200 (Body.json none true)] 1 5).succeeded = true := by
  have h := C6_theorem.2 1 5 [ProbeResp.resp 429 Body.badJson] []
    (ProbeResp.resp 200 (Body.json none true)) (by decide) (by decide) (by decide)
  simpa using h

/-- Claim C4, counterexample: after the 429 check, the waiting phase of
`test_rate_limit_recovery` neither sleeps a total of 60 seconds (the
policy's declared `softLimitWindowSeconds`) nor is it a single blocking
wait: it sleeps 65 seconds in 13 five-second increments driven by
`range(65, 0, -5)`. -/
theorem C4_counterexample :
    ¬ ((test_rate_limit_recovery [] 429 200).wait_sleeps.sum = 60 ∧
       (test_rate_limit_recovery [] 429 200).wait_sleeps.length = 1) := by
  decide

/-- Claim C4, amended: the Throttled → Waiting transition of
`test_rate_limit_recovery` sleeps 65 seconds in total, as 13 consecutive
5-second sleeps, during which no probes are sent; the subsequent
Waiting → Verifying transition issues exactly one probe against the target
endpoint. -/
theorem C4_theorem (burst : List Nat) (postStatus : Nat) :
    (test_rate_limit_recovery burst 429 postStatus).wait_sleeps =
      List.replicate 13 5 ∧
    (test_rate_limit_recovery burst 429 postStatus).wait_sleeps.sum = 65 ∧
    (test_rate_limit_recovery burst 429 postStatus).wait_probes = 0 ∧
    (test_rate_limit_recovery burst 429 postStatus).verify_probes = 1 := by
  refine ⟨?_, ?_, ?_, ?_⟩ <;> simp [test_rate_limit_recovery] <;> decide

/-- Claim C5, counterexample: a saturating burst every one of whose 35
responses was a 429 — so the burst certainly contains a Throttled outcome —
still ends at the "was not rate limited initially" terminal when the extra
36th probe issued after the burst returns 200: the transition reads that
extra probe, not the burst's own outcomes. -/
theorem C5_counterexample :
    (429 ∈ List.replicate 35 429) ∧
    (test_rate_limit_recovery (List.replicate 35 429) 200 200).saturated = false := by
  decide

/-- Claim C5, amended: the Saturating state of `test_rate_limit_recovery`
transitions to Throttled exactly when one additional probe, issued after
the burst completes, returns status 429; the burst's own outcomes are
discarded unread, so the decision is independent of them. -/
theorem C5_theorem (burst burst2 : List Nat) (extraStatus postStatus : Nat) :
    ((test_rate_limit_recovery burst extraStatus postStatus).saturated = true ↔
      extraStatus = 429) ∧
    (test_rate_limit_recovery burst extraStatus postStatus).saturated =
      (test_rate_limit_recovery burst2 extraStatus postStatus).saturated := by
  by_cases h : extraStatus = 429
  · subst h; simp [test_rate_limit_recovery]
  · simp [test_rate_limit_recovery, h]

/-- Claim C7: for every `BackoffPlan` with `multiplier > 1` and
`baseDelaySeconds > 0`, the derived
`delay(attempt) = baseDelaySeconds × multiplier ^ attempt` is strictly
increasing in the attempt index, and `delay(0)` equals
`baseDelaySeconds`. -/
theorem C7_theorem (p : BackoffPlan) (hm : 1 < p.multiplier)
    (hb : 0 < p.baseDelaySeconds) :
    StrictMono (delay p) ∧ delay p 0 = p.baseDelaySeconds := by
  constructor
  · intro x y hxy
    exact mul_lt_mul_of_pos_left (pow_lt_pow_right₀ hm hxy) hb
  · simp [delay]

/-- Claim C7, witness: the plan the scripts instantiate — 5 attempts, base
delay 1 second, multiplier 2. -/
theorem C7_witness :
    StrictMono (delay ⟨5, 1, 2⟩) ∧ delay ⟨5, 1, 2⟩ 0 = 1 :=
  C7_theorem ⟨5, 1, 2⟩ (by norm_num) (by norm_num)

/-- Claim C9: `APIClient.get` raises (models as `Except.error`) for every
response with status ≥ 400, 429 included; it returns the parsed JSON body
(`Except.ok`) only when the status is < 400 and the body parses; and the
retry loop built on it sees all failure categories as the one generic
exception type: its whole trace factors through the per-attempt
success/failure bit, so a throttled 429, a transport error, and an
unexpected status are indistinguishable to it. -/
theorem C9_theorem :
    (∀ (t s : Nat) (b : Body), 400 ≤ s →
      ∃ msg, APIClient.get t (TransportEvent.response s b) = Except.error msg) ∧
    (∀ (t : Nat) (ev : TransportEvent) (b : Body), APIClient.get t ev = Except.ok b →
      ∃ s ef hc, ev = TransportEvent.response s (Body.json ef hc) ∧
        s < 400 ∧ b = Body.json ef hc) ∧
    (∀ (m : Nat) (evs evs2 : List TransportEvent),
      evs.map attemptSucceeds = evs2.map attemptSucceeds →
      example_safe_request m evs = example_safe_request m evs2) := by
  refine ⟨?_, ?_, ?_⟩
  · intro t s b hs
    cases b <;> simp [APIClient.get, hs]
  · intro t ev b hok
    cases ev with
    | timeout => simp [APIClient.get] at hok
    | connError => simp [APIClient.get] at hok
    | reqError msg => simp [APIClient.get] at hok
    | response s body =>
      by_cases hs : 400 ≤ s
      · cases body <;> simp [APIClient.get, hs] at hok
      · cases body with
        | noContent => simp [APIClient.get, hs] at hok
        | badJson => simp [APIClient.get, hs] at hok
        | json ef hc =>
          refine ⟨s, ef, hc, rfl, by omega, ?_⟩
          simp [APIClient.get, hs] at hok
          exact hok.symm
  · intro m evs evs2 h
    exact retryGo_factor m evs evs2 0 1 h

/-- Claim C9, witness: a throttled 429 response raises; a 200 response with
a parsed body is the only shape `ok` results take; and the retry loop's
trace on a timeout equals its trace on an unexpected 500 — the categories
are indistinguishable to it. -/
theorem C9_witness :
    (∃ msg, APIClient.get 10
      (TransportEvent.response 429 (Body.json (some "Rate limit exceeded") true)) =
        Except.error msg) ∧
    (∃ s ef hc,
      TransportEvent.response 200 (Body.json none true) =
        TransportEvent.response s (Body.json ef hc) ∧ s < 400 ∧
      (Body.json none true : Body) = Body.json ef hc) ∧
    example_safe_request 3 [TransportEvent.timeout] =
      example_safe_request 3 [TransportEvent.response 500 Body.noContent] :=
  ⟨C9_theorem.1 10 429 (Body.json (some "Rate limit exceeded") true) (by decide),
    C9_theorem.2.1 10 (TransportEvent.response 200 (Body.json none true))
      (Body.json none true) rfl,
    C9_theorem.2.2 3 [TransportEvent.timeout]
      [TransportEvent.response 500 Body.noContent] rfl⟩

theorem exemptStep_foldl (evs : List ProbeResp) :
    ∀ n, evs.foldl exemptStep n = n + (evs.map is200).count true := by
  induction evs with
  | nil => intro n; simp
  | cons r rest ih =>
    intro n
    rw [List.foldl_cons, ih]
    cases r with
    | exn => simp [exemptStep, is200, List.count_cons]
    | resp s b =>
      by_cases hs : s = 200 <;>
        simp [exemptStep, is200, List.count_cons, hs] <;> omega

theorem filter_is200_length (evs : List ProbeResp) :
    (evs.filter is200).length = (evs.map is200).count true := by
  induction evs with
  | nil => rfl
  | cons r rest ih =>
    by_cases h : is200 r = true
    · simp [List.filter_cons, List.count_cons, h, ih]
    · simp [List.filter_cons, List.count_cons, h, ih]

/-- Claim C10: during an exemption-check burst of `test_exempt_endpoints`,
the recorded per-endpoint tally is exactly the number of probes whose
response carried status 200: every raised exception is swallowed and leaves
the counter unchanged, no non-200 status is recorded, and the result is a
function of the 200-mask alone — so a 429 throttle, any other non-200
status, and a transport failure are mutually indistinguishable in the
reported outcome. -/
theorem C10_theorem (events : List ProbeResp) :
    test_exempt_endpoints events = (events.map is200).count true ∧
    test_exempt_endpoints events = (events.filter is200).length := by
  constructor
  · rw [test_exempt_endpoints, exemptStep_foldl]; omega
  · rw [test_exempt_endpoints, exemptStep_foldl, filter_is200_length]; omega

end StatusService
